import Mathlib

/-!
Verification of the frame-synchronization and swapchain-lifecycle engine of
the MiniEngine repository (src/src/app.cpp, src/include/miniengine/app.h).

The C++ source is shallowly embedded: pure selection helpers become Lean
functions, the per-frame driver `App::DrawFrame` becomes a state transformer
producing an event trace, and the interaction with the asynchronous GPU is a
small transition system whose reachable states we analyse.  Machine integers
(`uint32_t`) are modelled as `Nat` with an explicit wrap where overflow can
occur; fallible operations return `Option`/`Except`.
-/

set_option autoImplicit false

namespace MiniEngine

/-- `constexpr int MAX_FRAMES_IN_FLIGHT = 2;` (include/miniengine/app.h:28). -/
def MAX_FRAMES_IN_FLIGHT : Nat := 2

/-- The `UINT32_MAX` sentinel used by `App::ChooseSwapExtent` to detect a
surface with no fixed current extent. -/
def UINT32_MAX : Nat := 4294967295

/-- `VkExtent2D`: a width/height pair of `uint32_t`. -/
structure Extent2D where
  width : Nat
  height : Nat
deriving DecidableEq, Repr

/-- The fields of `VkSurfaceCapabilitiesKHR` read by `App::CreateSwapchain`
and `App::ChooseSwapExtent`. -/
structure SurfaceCapabilities where
  minImageCount : Nat
  maxImageCount : Nat
  currentExtent : Extent2D
  minImageExtent : Extent2D
  maxImageExtent : Extent2D
deriving DecidableEq, Repr

/-- `VK_FORMAT_B8G8R8A8_SRGB` (numeric value from vulkan_core.h). -/
def VK_FORMAT_B8G8R8A8_SRGB : Nat := 50

/-- `VK_COLOR_SPACE_SRGB_NONLINEAR_KHR` (numeric value from vulkan_core.h). -/
def VK_COLOR_SPACE_SRGB_NONLINEAR_KHR : Nat := 0

/-- `VkSurfaceFormatKHR`: a (format, colorSpace) pair. -/
structure SurfaceFormat where
  format : Nat
  colorSpace : Nat
deriving DecidableEq, Repr

/-- The present modes that appear in `App::ChooseSwapPresentMode`. -/
inductive PresentMode where
  | immediate
  | mailbox
  | fifo
  | fifoRelaxed
deriving DecidableEq, Repr

/-- `App::SwapchainSupportDetails` (include/miniengine/app.h:159-163). -/
structure SwapchainSupportDetails where
  capabilities : SurfaceCapabilities
  formats : List SurfaceFormat
  presentModes : List PresentMode
deriving DecidableEq, Repr

/-- `std::clamp(v, lo, hi)`: `lo` if `v < lo`, else `hi` if `hi < v`, else
`v`. -/
def stdClamp (v lo hi : Nat) : Nat :=
  if v < lo then lo else if hi < v then hi else v

/-- `App::ChooseSwapSurfaceFormat` (app.cpp:1332-1342): return the first
available format equal to (B8G8R8A8_SRGB, SRGB_NONLINEAR); otherwise return
`availableFormats[0]`.  The subscript on an empty vector is an out-of-bounds
access, modelled as `none`. -/
def ChooseSwapSurfaceFormat (availableFormats : List SurfaceFormat) :
    Option SurfaceFormat :=
  match availableFormats.find? (fun f =>
      f.format == VK_FORMAT_B8G8R8A8_SRGB &&
      f.colorSpace == VK_COLOR_SPACE_SRGB_NONLINEAR_KHR) with
  | some f => some f
  | none => availableFormats.head?

/-- `App::ChooseSwapPresentMode` (app.cpp:1344-1353): return mailbox when
offered, otherwise fall back to FIFO (no emptiness check is made). -/
def ChooseSwapPresentMode (availablePresentModes : List PresentMode) :
    PresentMode :=
  match availablePresentModes.find? (fun m => m == PresentMode.mailbox) with
  | some m => m
  | none => PresentMode.fifo

/-- `App::ChooseSwapExtent` (app.cpp:1355-1374).  `fbSize` stands for the
`glfwGetFramebufferSize` result read inside the function. -/
def ChooseSwapExtent (capabilities : SurfaceCapabilities) (fbSize : Extent2D) :
    Extent2D :=
  if capabilities.currentExtent.width != UINT32_MAX then
    capabilities.currentExtent
  else
    { width := stdClamp fbSize.width capabilities.minImageExtent.width
        capabilities.maxImageExtent.width,
      height := stdClamp fbSize.height capabilities.minImageExtent.height
        capabilities.maxImageExtent.height }

/-- The image-count computation of `App::CreateSwapchain` (app.cpp:319-323):
`minImageCount + 1`, reduced to `maxImageCount` when that maximum is non-zero
and exceeded.  The `+ 1` is `uint32_t` arithmetic, hence the wrap. -/
def swapImageCount (capabilities : SurfaceCapabilities) : Nat :=
  let imageCount := (capabilities.minImageCount + 1) % 4294967296
  if capabilities.maxImageCount > 0 ∧ imageCount > capabilities.maxImageCount
  then capabilities.maxImageCount
  else imageCount

/-- The swapchain-owned resources of `App`: the parameters stored by
`App::CreateSwapchain` (`swapchainImageFormat`, `swapchainExtent`, the image
list length) and liveness of the per-image objects created by
`App::CreateImageViews` / `App::CreateFramebuffers`. -/
structure SwapchainResources where
  imageCount : Nat
  swapchainImageFormat : Nat
  swapchainExtent : Extent2D
  presentMode : PresentMode
  imageViewCount : Nat
  framebufferCount : Nat
  swapchainAlive : Bool
deriving DecidableEq, Repr

/-- `App::CreateSwapchain` (app.cpp:309-371) as a function of the queried
surface support and the current framebuffer size: select format, present
mode, extent and image count, and create the swapchain object.  `none`
models the out-of-bounds format access on a surface with zero formats. -/
def CreateSwapchain (support : SwapchainSupportDetails) (fbSize : Extent2D) :
    Option SwapchainResources :=
  match ChooseSwapSurfaceFormat support.formats with
  | none => none
  | some surfaceFormat =>
    some { imageCount := swapImageCount support.capabilities,
           swapchainImageFormat := surfaceFormat.format,
           swapchainExtent := ChooseSwapExtent support.capabilities fbSize,
           presentMode := ChooseSwapPresentMode support.presentModes,
           imageViewCount := 0,
           framebufferCount := 0,
           swapchainAlive := true }

/-- `App::CreateImageViews` (app.cpp:373-397): one view per swapchain
image. -/
def CreateImageViews (sc : SwapchainResources) : SwapchainResources :=
  { sc with imageViewCount := sc.imageCount }

/-- `App::CreateFramebuffers` (app.cpp:724-744): one framebuffer per image
view. -/
def CreateFramebuffers (sc : SwapchainResources) : SwapchainResources :=
  { sc with framebufferCount := sc.imageViewCount }

/-- The `App` resources relevant to swapchain teardown/rebuild: the
swapchain-owned part plus liveness flags for everything
`App::CleanupSwapchain` must not touch (surface, device, pipeline, render
pass, and the frame-slot pool: command buffers, semaphores, fences). -/
structure AppResources where
  sc : SwapchainResources
  surfaceAlive : Bool
  deviceAlive : Bool
  pipelineAlive : Bool
  pipelineLayoutAlive : Bool
  renderPassAlive : Bool
  commandBuffersAlive : Bool
  imageAvailableSemaphoresAlive : Bool
  renderFinishedSemaphoresAlive : Bool
  inFlightFencesAlive : Bool
deriving DecidableEq, Repr

/-- `App::CleanupSwapchain` (app.cpp:857-867): destroy every framebuffer,
every image view, and the swapchain handle; nothing else is touched. -/
def CleanupSwapchain (a : AppResources) : AppResources :=
  { a with
      sc := { a.sc with
                framebufferCount := 0
                imageViewCount := 0
                swapchainAlive := false } }

/-- The zero-size wait loop of `App::RecreateSwapchain` (app.cpp:870-875):
`polled` is the stream of successive `glfwGetFramebufferSize` results; the
loop exits at the first non-zero size.  `none` means the loop never exits
(the call blocks). -/
def firstNonZeroSize (polled : List Extent2D) : Option Extent2D :=
  polled.find? (fun e => !(e.width == 0 || e.height == 0))

/-- `App::RecreateSwapchain` (app.cpp:869-884): wait for a non-zero
framebuffer size, wait for the device to be idle, destroy the old swapchain
resources, then recreate swapchain, image views and framebuffers.  The
framebuffer size used by `ChooseSwapExtent` is the loop's final (non-zero)
read, issued immediately after the wait loop exits. -/
def RecreateSwapchain (support : SwapchainSupportDetails)
    (polled : List Extent2D) (a : AppResources) : Option AppResources :=
  match firstNonZeroSize polled with
  | none => none
  | some fbSize =>
    let a1 := CleanupSwapchain a
    match CreateSwapchain support fbSize with
    | none => none
    | some sc => some { a1 with sc := CreateFramebuffers (CreateImageViews sc) }

/-- The `VkResult` values distinguished by `App::DrawFrame`: success,
`VK_SUBOPTIMAL_KHR`, `VK_ERROR_OUT_OF_DATE_KHR`, and any other (error)
code. -/
inductive VkResult where
  | success
  | suboptimal
  | errorOutOfDate
  | otherError
deriving DecidableEq, Repr

/-- The driver state mutated by `App::DrawFrame`: the function-static
`currentFrame` counter (app.cpp:937), the per-slot in-flight fences
(`true` = signaled), the `framebufferResized` flag, and a generation counter
incremented on each `RecreateSwapchain` invocation (the rebuild's internal
effect is modelled separately by `RecreateSwapchain`). -/
structure DriverState where
  currentFrame : Nat
  fences : List Bool
  framebufferResized : Bool
  swapchainGeneration : Nat
deriving DecidableEq, Repr

/-- The environment of one `App::DrawFrame` call: the result and image index
returned by `vkAcquireNextImageKHR`, and the result of
`vkQueuePresentKHR`. -/
structure FrameInputs where
  acquireRes : VkResult
  imageIndex : Nat
  presentRes : VkResult
deriving DecidableEq, Repr

/-- Observable actions of one `App::DrawFrame` iteration, in program
order. -/
inductive FrameEvent where
  | waitedFence (slot : Nat)
  | acquired (res : VkResult)
  | resetFence (slot : Nat)
  | resetAndRecorded (slot : Nat) (imageIndex : Nat)
  | submitted (slot : Nat)
  | presented (res : VkResult)
  | recreatedSwapchain
deriving DecidableEq, Repr

/-- `App::DrawFrame` (app.cpp:936-1031): wait on the slot's in-flight fence;
acquire (`VK_ERROR_OUT_OF_DATE_KHR` aborts the frame after invoking
`RecreateSwapchain`; any result other than success/suboptimal throws); reset
the fence; reset and record the command buffer; submit; present
(out-of-date, suboptimal, or a pending `framebufferResized` trigger a
rebuild and clear the flag; any other non-success result throws); advance
`currentFrame` modulo `MAX_FRAMES_IN_FLIGHT`.  Returns the new state and
the trace of events, or the thrown error message. -/
def DrawFrame (inp : FrameInputs) (s : DriverState) :
    Except String (DriverState × List FrameEvent) :=
  let cf := s.currentFrame
  let tr0 := [FrameEvent.waitedFence cf, FrameEvent.acquired inp.acquireRes]
  if inp.acquireRes = VkResult.errorOutOfDate then
    Except.ok ({ s with swapchainGeneration := s.swapchainGeneration + 1 },
      tr0 ++ [FrameEvent.recreatedSwapchain])
  else if inp.acquireRes ≠ VkResult.success ∧
      inp.acquireRes ≠ VkResult.suboptimal then
    Except.error "Failed to acquire swap chain image"
  else
    let fences1 := s.fences.set cf false
    let tr1 := tr0 ++ [FrameEvent.resetFence cf,
      FrameEvent.resetAndRecorded cf inp.imageIndex,
      FrameEvent.submitted cf,
      FrameEvent.presented inp.presentRes]
    if inp.presentRes = VkResult.errorOutOfDate ∨
        inp.presentRes = VkResult.suboptimal ∨
        s.framebufferResized = true then
      Except.ok ({ s with
          fences := fences1
          framebufferResized := false
          swapchainGeneration := s.swapchainGeneration + 1
          currentFrame := (cf + 1) % MAX_FRAMES_IN_FLIGHT },
        tr1 ++ [FrameEvent.recreatedSwapchain])
    else if inp.presentRes ≠ VkResult.success then
      Except.error "failed to present swap chain image!"
    else
      Except.ok ({ s with
          fences := fences1
          currentFrame := (cf + 1) % MAX_FRAMES_IN_FLIGHT },
        tr1)

/-- The slots submitted to the graphics queue during one frame, read off the
event trace. -/
def submittedSlots (tr : List FrameEvent) : List Nat :=
  tr.filterMap (fun e =>
    match e with
    | FrameEvent.submitted i => some i
    | _ => none)

/-- Driver state after `App::CreateSyncObjects` (app.cpp:828-855): frame
counter zero and every in-flight fence created in the signaled state
(`VK_FENCE_CREATE_SIGNALED_BIT`, app.cpp:839-841). -/
def initDriver : DriverState :=
  { currentFrame := 0,
    fences := List.replicate MAX_FRAMES_IN_FLIGHT true,
    framebufferResized := false,
    swapchainGeneration := 0 }

/-- Combined state of the single control thread and the asynchronous GPU:
`gpuPending` lists, in submission order, the slots whose submitted work the
GPU has not yet retired. -/
structure SysState where
  driver : DriverState
  gpuPending : List Nat
deriving DecidableEq, Repr

/-- The initial system state: fresh sync objects, no outstanding GPU
work. -/
def initSys : SysState :=
  { driver := initDriver, gpuPending := [] }

/-- Interleaving of the frame loop (app.cpp:1039-1042) with the GPU.
`gpuComplete`: the GPU retires the oldest outstanding submission (the single
graphics queue executes submissions in order) and signals the slot's
in-flight fence.  `frame`: one `App::DrawFrame` iteration; it is enabled
only when the active slot's fence is signaled, because `vkWaitForFences`
(app.cpp:950) blocks until the GPU has signaled it. -/
inductive Step : SysState → SysState → Prop where
  | gpuComplete (s : SysState) (p : Nat) (rest : List Nat) :
      s.gpuPending = p :: rest →
      Step s { driver := { s.driver with fences := s.driver.fences.set p true },
               gpuPending := rest }
  | frame (s : SysState) (inp : FrameInputs) (d : DriverState)
      (tr : List FrameEvent) :
      s.driver.fences.get? s.driver.currentFrame = some true →
      DrawFrame inp s.driver = Except.ok (d, tr) →
      Step s { driver := d, gpuPending := s.gpuPending ++ submittedSlots tr }

/-- States reachable from the initial state by interleaved frame and GPU
steps. -/
inductive Reachable : SysState → Prop where
  | init : Reachable initSys
  | step {s t : SysState} : Reachable s → Step s t → Reachable t

/-- The inductive invariant of the frame loop: the fence pool has exactly
`MAX_FRAMES_IN_FLIGHT` entries, the frame counter is in range, no slot has
two outstanding submissions, and a slot with an outstanding submission has
its in-flight fence unsignaled. -/
def SysInv (s : SysState) : Prop :=
  s.driver.fences.length = MAX_FRAMES_IN_FLIGHT ∧
  s.driver.currentFrame < MAX_FRAMES_IN_FLIGHT ∧
  s.gpuPending.Nodup ∧
  ∀ p ∈ s.gpuPending,
    p < MAX_FRAMES_IN_FLIGHT ∧ s.driver.fences.get? p = some false

/-- The shutdown actions of the program, in order: the trailing
`vkDeviceWaitIdle` of `App::MainLoop` (app.cpp:1045) followed by the body of
`App::Cleanup` (app.cpp:1048-1093). -/
inductive CleanupAction where
  | deviceWaitIdle
  | destroySwapchainState
  | imguiShutdown
  | waitInFlightFences
  | destroyDescriptorPool
  | destroyVertexBuffer
  | freeVertexBufferMemory
  | destroyCommandPool
  | destroyPipeline
  | destroyPipelineLayout
  | destroyRenderPass
  | destroyFrameSlotSyncObjects
  | destroyDevice
  | destroyDebugMessenger
  | destroySurface
  | destroyInstance
  | destroyWindow
  | terminateGlfw
deriving DecidableEq, Repr

/-- The shutdown sequence (`vkDeviceWaitIdle` at the end of `App::MainLoop`,
then `App::Cleanup`), parameterized by `enableValidationLayers`
(the debug messenger is destroyed only in validation builds,
app.cpp:1083-1085). -/
def ShutdownActions (validationEnabled : Bool) : List CleanupAction :=
  [CleanupAction.deviceWaitIdle,
   CleanupAction.destroySwapchainState,
   CleanupAction.imguiShutdown,
   CleanupAction.waitInFlightFences,
   CleanupAction.destroyDescriptorPool,
   CleanupAction.destroyVertexBuffer,
   CleanupAction.freeVertexBufferMemory,
   CleanupAction.destroyCommandPool,
   CleanupAction.destroyPipeline,
   CleanupAction.destroyPipelineLayout,
   CleanupAction.destroyRenderPass,
   CleanupAction.destroyFrameSlotSyncObjects,
   CleanupAction.destroyDevice] ++
  (if validationEnabled then [CleanupAction.destroyDebugMessenger] else []) ++
  [CleanupAction.destroySurface,
   CleanupAction.destroyInstance,
   CleanupAction.destroyWindow,
   CleanupAction.terminateGlfw]

/-! Sample inputs used by witnesses and counterexamples. -/

/-- Sample surface capabilities without a fixed current extent (the width is
the indeterminate sentinel). -/
def sampleCaps : SurfaceCapabilities :=
  { minImageCount := 2,
    maxImageCount := 8,
    currentExtent := { width := UINT32_MAX, height := 600 },
    minImageExtent := { width := 1, height := 1 },
    maxImageExtent := { width := 4096, height := 4096 } }

/-- Sample surface support: one preferred format, FIFO only. -/
def sampleSupport : SwapchainSupportDetails :=
  { capabilities := sampleCaps,
    formats := [{ format := VK_FORMAT_B8G8R8A8_SRGB,
                  colorSpace := VK_COLOR_SPACE_SRGB_NONLINEAR_KHR }],
    presentModes := [PresentMode.fifo] }

/-- Sample framebuffer-size poll stream: one minimized (zero) read, then a
640 by 480 read. -/
def samplePolled : List Extent2D :=
  [{ width := 0, height := 0 }, { width := 640, height := 480 }]

/-- Sample application resource state with everything alive. -/
def sampleApp : AppResources :=
  { sc := { imageCount := 3,
            swapchainImageFormat := VK_FORMAT_B8G8R8A8_SRGB,
            swapchainExtent := { width := 800, height := 600 },
            presentMode := PresentMode.fifo,
            imageViewCount := 3,
            framebufferCount := 3,
            swapchainAlive := true },
    surfaceAlive := true,
    deviceAlive := true,
    pipelineAlive := true,
    pipelineLayoutAlive := true,
    renderPassAlive := true,
    commandBuffersAlive := true,
    imageAvailableSemaphoresAlive := true,
    renderFinishedSemaphoresAlive := true,
    inFlightFencesAlive := true }

/-- The resource state produced by rebuilding `sampleApp` against
`sampleSupport` and `samplePolled`. -/
def sampleRebuilt : AppResources :=
  { sampleApp with
      sc := { imageCount := 3,
              swapchainImageFormat := VK_FORMAT_B8G8R8A8_SRGB,
              swapchainExtent := { width := 640, height := 480 },
              presentMode := PresentMode.fifo,
              imageViewCount := 3,
              framebufferCount := 3,
              swapchainAlive := true } }

/-- Surface support reporting one (non-preferred) format and zero present
modes. -/
def noPresentModeSupport : SwapchainSupportDetails :=
  { capabilities := sampleCaps,
    formats := [{ format := 7, colorSpace := 7 }],
    presentModes := [] }

/-!  Theorems.  -/

/-- C1: if image acquisition reports `VK_ERROR_OUT_OF_DATE_KHR`, `DrawFrame`
invokes the swapchain rebuild and aborts the frame: the returned state
differs from the input state only in the rebuild counter — the frame counter
is not advanced and the fences are untouched — the in-flight fence of the
active slot is still signaled (it was signaled when the wait at the top of
the frame returned, and is never reset on this path), and the trace shows
the rebuild, no fence reset, no command-buffer recording and no
submission. -/
theorem C1_acquire_stale_aborts_frame (inp : FrameInputs) (s : DriverState)
    (hres : inp.acquireRes = VkResult.errorOutOfDate)
    (hsig : s.fences.get? s.currentFrame = some true) :
    DrawFrame inp s = Except.ok
      ({ s with swapchainGeneration := s.swapchainGeneration + 1 },
       [FrameEvent.waitedFence s.currentFrame,
        FrameEvent.acquired inp.acquireRes,
        FrameEvent.recreatedSwapchain]) ∧
    s.fences.get? s.currentFrame = some true ∧
    (∀ i, FrameEvent.resetFence i ∉
      [FrameEvent.waitedFence s.currentFrame,
       FrameEvent.acquired inp.acquireRes,
       FrameEvent.recreatedSwapchain]) ∧
    (∀ i j, FrameEvent.resetAndRecorded i j ∉
      [FrameEvent.waitedFence s.currentFrame,
       FrameEvent.acquired inp.acquireRes,
       FrameEvent.recreatedSwapchain]) ∧
    submittedSlots
      [FrameEvent.waitedFence s.currentFrame,
       FrameEvent.acquired inp.acquireRes,
       FrameEvent.recreatedSwapchain] = [] := by
  refine ⟨?_, hsig, ?_, ?_, ?_⟩
  · simp [DrawFrame, hres]
  · intro i
    simp [hres]
  · intro i j
    simp [hres]
  · simp [submittedSlots, hres]

/-- C1 witness: the theorem applied at a concrete out-of-date acquisition
from the initial driver state. -/
theorem C1_witness :
    DrawFrame { acquireRes := VkResult.errorOutOfDate, imageIndex := 0,
                presentRes := VkResult.success } initDriver = Except.ok
      ({ initDriver with swapchainGeneration := initDriver.swapchainGeneration + 1 },
       [FrameEvent.waitedFence initDriver.currentFrame,
        FrameEvent.acquired VkResult.errorOutOfDate,
        FrameEvent.recreatedSwapchain]) ∧
    initDriver.fences.get? initDriver.currentFrame = some true ∧
    (∀ i, FrameEvent.resetFence i ∉
      [FrameEvent.waitedFence initDriver.currentFrame,
       FrameEvent.acquired VkResult.errorOutOfDate,
       FrameEvent.recreatedSwapchain]) ∧
    (∀ i j, FrameEvent.resetAndRecorded i j ∉
      [FrameEvent.waitedFence initDriver.currentFrame,
       FrameEvent.acquired VkResult.errorOutOfDate,
       FrameEvent.recreatedSwapchain]) ∧
    submittedSlots
      [FrameEvent.waitedFence initDriver.currentFrame,
       FrameEvent.acquired VkResult.errorOutOfDate,
       FrameEvent.recreatedSwapchain] = [] :=
  C1_acquire_stale_aborts_frame
    { acquireRes := VkResult.errorOutOfDate, imageIndex := 0,
      presentRes := VkResult.success }
    initDriver rfl (by decide)

/-- C3: when the frame reaches presentation and presentation reports
out-of-date or suboptimal, or the resize flag is pending, `DrawFrame`
rebuilds the swapchain (rebuild counter incremented, rebuild event after
the present event), clears the resize flag, advances the frame counter
modulo `MAX_FRAMES_IN_FLIGHT`, and alters slot state only by the standard
per-frame fence reset of the active slot — exactly as on the success
path. -/
theorem C3_present_stale_or_resize_rebuilds (inp : FrameInputs)
    (s : DriverState)
    (hacq : inp.acquireRes = VkResult.success ∨
      inp.acquireRes = VkResult.suboptimal)
    (hpres : inp.presentRes = VkResult.errorOutOfDate ∨
      inp.presentRes = VkResult.suboptimal ∨ s.framebufferResized = true) :
    DrawFrame inp s = Except.ok
      ({ s with
          fences := s.fences.set s.currentFrame false
          framebufferResized := false
          swapchainGeneration := s.swapchainGeneration + 1
          currentFrame := (s.currentFrame + 1) % MAX_FRAMES_IN_FLIGHT },
       [FrameEvent.waitedFence s.currentFrame,
        FrameEvent.acquired inp.acquireRes,
        FrameEvent.resetFence s.currentFrame,
        FrameEvent.resetAndRecorded s.currentFrame inp.imageIndex,
        FrameEvent.submitted s.currentFrame,
        FrameEvent.presented inp.presentRes,
        FrameEvent.recreatedSwapchain]) := by
  rcases hacq with h | h <;>
    · simp only [DrawFrame, h]
      rw [if_neg (by simp), if_neg (by simp), if_pos hpres]
      rfl

/-- C3 witness: the theorem applied at a concrete suboptimal presentation
from the initial driver state. -/
theorem C3_witness :
    DrawFrame { acquireRes := VkResult.success, imageIndex := 0,
                presentRes := VkResult.suboptimal } initDriver = Except.ok
      ({ initDriver with
          fences := initDriver.fences.set initDriver.currentFrame false
          framebufferResized := false
          swapchainGeneration := initDriver.swapchainGeneration + 1
          currentFrame := (initDriver.currentFrame + 1) % MAX_FRAMES_IN_FLIGHT },
       [FrameEvent.waitedFence initDriver.currentFrame,
        FrameEvent.acquired VkResult.success,
        FrameEvent.resetFence initDriver.currentFrame,
        FrameEvent.resetAndRecorded initDriver.currentFrame 0,
        FrameEvent.submitted initDriver.currentFrame,
        FrameEvent.presented VkResult.suboptimal,
        FrameEvent.recreatedSwapchain]) :=
  C3_present_stale_or_resize_rebuilds
    { acquireRes := VkResult.success, imageIndex := 0,
      presentRes := VkResult.suboptimal }
    initDriver (Or.inl rfl) (Or.inr (Or.inl rfl))

/-- C4 counterexample: with suboptimal acquisition, successful presentation
and no pending resize, `DrawFrame` does not rebuild the swapchain — the
suboptimal acquire result is overwritten by the present result
(app.cpp:1020), so no rebuild event appears in the trace, refuting the
claim that the swapchain is rebuilt after presenting that frame. -/
theorem C4_counterexample :
    ¬ (∀ d tr,
        DrawFrame { acquireRes := VkResult.suboptimal, imageIndex := 0,
                    presentRes := VkResult.success } initDriver
          = Except.ok (d, tr) →
        FrameEvent.recreatedSwapchain ∈ tr) := by
  intro h
  exact absurd (h _ _ (by rfl)) (by decide)

/-- C4 (amended): on suboptimal-but-usable acquisition (with successful
presentation and no pending resize) the frame continues through recording,
submission and presentation, but the swapchain is not rebuilt afterwards:
the returned trace is the plain success-path trace with no rebuild event,
and the rebuild counter is unchanged. -/
theorem C4_suboptimal_acquire_continues_without_rebuild (inp : FrameInputs)
    (s : DriverState)
    (hacq : inp.acquireRes = VkResult.suboptimal)
    (hpres : inp.presentRes = VkResult.success)
    (hflag : s.framebufferResized = false) :
    DrawFrame inp s = Except.ok
      ({ s with
          fences := s.fences.set s.currentFrame false
          currentFrame := (s.currentFrame + 1) % MAX_FRAMES_IN_FLIGHT },
       [FrameEvent.waitedFence s.currentFrame,
        FrameEvent.acquired inp.acquireRes,
        FrameEvent.resetFence s.currentFrame,
        FrameEvent.resetAndRecorded s.currentFrame inp.imageIndex,
        FrameEvent.submitted s.currentFrame,
        FrameEvent.presented inp.presentRes]) ∧
    FrameEvent.recreatedSwapchain ∉
      [FrameEvent.waitedFence s.currentFrame,
       FrameEvent.acquired inp.acquireRes,
       FrameEvent.resetFence s.currentFrame,
       FrameEvent.resetAndRecorded s.currentFrame inp.imageIndex,
       FrameEvent.submitted s.currentFrame,
       FrameEvent.presented inp.presentRes] := by
  constructor
  · simp [DrawFrame, hacq, hpres, hflag]
  · simp [hacq, hpres]

/-- C4 witness: the amended theorem applied at a concrete suboptimal
acquisition from the initial driver state. -/
theorem C4_witness :
    DrawFrame { acquireRes := VkResult.suboptimal, imageIndex := 0,
                presentRes := VkResult.success } initDriver = Except.ok
      ({ initDriver with
          fences := initDriver.fences.set initDriver.currentFrame false
          currentFrame := (initDriver.currentFrame + 1) % MAX_FRAMES_IN_FLIGHT },
       [FrameEvent.waitedFence initDriver.currentFrame,
        FrameEvent.acquired VkResult.suboptimal,
        FrameEvent.resetFence initDriver.currentFrame,
        FrameEvent.resetAndRecorded initDriver.currentFrame 0,
        FrameEvent.submitted initDriver.currentFrame,
        FrameEvent.presented VkResult.success]) ∧
    FrameEvent.recreatedSwapchain ∉
      [FrameEvent.waitedFence initDriver.currentFrame,
       FrameEvent.acquired VkResult.suboptimal,
       FrameEvent.resetFence initDriver.currentFrame,
       FrameEvent.resetAndRecorded initDriver.currentFrame 0,
       FrameEvent.submitted initDriver.currentFrame,
       FrameEvent.presented VkResult.success] :=
  C4_suboptimal_acquire_continues_without_rebuild
    { acquireRes := VkResult.suboptimal, imageIndex := 0,
      presentRes := VkResult.success }
    initDriver rfl rfl rfl

/-- C5 counterexample: in the shutdown sequence the frame-slot sync objects
are destroyed after the vertex buffer (app.cpp:1067 versus app.cpp:1075-1079),
refuting the claimed order "frame slots, then owned buffers". -/
theorem C5_counterexample :
    ¬ ((ShutdownActions true).indexOf CleanupAction.destroyFrameSlotSyncObjects <
       (ShutdownActions true).indexOf CleanupAction.destroyVertexBuffer) := by
  decide

/-- C5 (amended): shutdown performs the device-idle wait, then destroys the
swapchain state, then the owned vertex buffer, and then the frame-slot sync
objects, in that order (the vertex buffer is destroyed before the frame
slots, not after), in both validation and release builds. -/
theorem C5_shutdown_order (validationEnabled : Bool) :
    CleanupAction.deviceWaitIdle ∈ ShutdownActions validationEnabled ∧
    CleanupAction.destroySwapchainState ∈ ShutdownActions validationEnabled ∧
    CleanupAction.destroyVertexBuffer ∈ ShutdownActions validationEnabled ∧
    CleanupAction.destroyFrameSlotSyncObjects ∈ ShutdownActions validationEnabled ∧
    (ShutdownActions validationEnabled).indexOf CleanupAction.deviceWaitIdle <
      (ShutdownActions validationEnabled).indexOf CleanupAction.destroySwapchainState ∧
    (ShutdownActions validationEnabled).indexOf CleanupAction.destroySwapchainState <
      (ShutdownActions validationEnabled).indexOf CleanupAction.destroyVertexBuffer ∧
    (ShutdownActions validationEnabled).indexOf CleanupAction.destroyVertexBuffer <
      (ShutdownActions validationEnabled).indexOf CleanupAction.destroyFrameSlotSyncObjects := by
  cases validationEnabled <;> decide

/-- C5 witness: the amended theorem evaluated for the validation build. -/
theorem C5_witness :
    CleanupAction.deviceWaitIdle ∈ ShutdownActions true ∧
    CleanupAction.destroySwapchainState ∈ ShutdownActions true ∧
    CleanupAction.destroyVertexBuffer ∈ ShutdownActions true ∧
    CleanupAction.destroyFrameSlotSyncObjects ∈ ShutdownActions true ∧
    (ShutdownActions true).indexOf CleanupAction.deviceWaitIdle <
      (ShutdownActions true).indexOf CleanupAction.destroySwapchainState ∧
    (ShutdownActions true).indexOf CleanupAction.destroySwapchainState <
      (ShutdownActions true).indexOf CleanupAction.destroyVertexBuffer ∧
    (ShutdownActions true).indexOf CleanupAction.destroyVertexBuffer <
      (ShutdownActions true).indexOf CleanupAction.destroyFrameSlotSyncObjects :=
  C5_shutdown_order true

/-- Case analysis of a non-throwing `DrawFrame` iteration: either the frame
aborted at acquisition (state changed only by the rebuild counter, nothing
submitted, nothing recorded), or the frame ran to completion (the active
slot's fence was reset, the counter advanced modulo
`MAX_FRAMES_IN_FLIGHT`, exactly the active slot was submitted, and only the
active slot's command buffer was recorded). -/
lemma drawFrame_ok_cases (inp : FrameInputs) (s : DriverState)
    (d : DriverState) (tr : List FrameEvent)
    (h : DrawFrame inp s = Except.ok (d, tr)) :
    (d = { s with swapchainGeneration := s.swapchainGeneration + 1 } ∧
      submittedSlots tr = [] ∧
      (∀ i j, FrameEvent.resetAndRecorded i j ∉ tr)) ∨
    (d.fences = s.fences.set s.currentFrame false ∧
      d.currentFrame = (s.currentFrame + 1) % MAX_FRAMES_IN_FLIGHT ∧
      submittedSlots tr = [s.currentFrame] ∧
      (∀ i j, FrameEvent.resetAndRecorded i j ∈ tr →
        i = s.currentFrame)) := by
  unfold DrawFrame at h
  split at h
  · simp only [Except.ok.injEq, Prod.mk.injEq] at h
    obtain ⟨hd, htr⟩ := h
    subst hd
    subst htr
    refine Or.inl ⟨rfl, rfl, ?_⟩
    intro i j
    simp
  · split at h
    · exact absurd h (by simp)
    · split at h
      · simp only [Except.ok.injEq, Prod.mk.injEq] at h
        obtain ⟨hd, htr⟩ := h
        subst hd
        subst htr
        refine Or.inr ⟨rfl, rfl, rfl, ?_⟩
        intro i j hm
        simp at hm
        exact hm.1
      · split at h
        · exact absurd h (by simp)
        · simp only [Except.ok.injEq, Prod.mk.injEq] at h
          obtain ⟨hd, htr⟩ := h
          subst hd
          subst htr
          refine Or.inr ⟨rfl, rfl, rfl, ?_⟩
          intro i j hm
          simp at hm
          exact hm.1

/-- The invariant holds initially: the pool has two signaled fences and the
GPU has no outstanding work. -/
lemma sysInv_init : SysInv initSys :=
  ⟨rfl, by decide, List.nodup_nil, fun p hp => absurd hp (by simp [initSys])⟩

/-- The invariant is preserved by every step of the interleaved system. -/
lemma sysInv_step {s t : SysState} (hInv : SysInv s) (hStep : Step s t) :
    SysInv t := by
  obtain ⟨hlen, hcf, hnd, hmem⟩ := hInv
  cases hStep with
  | gpuComplete p rest hpend =>
    rw [hpend] at hnd hmem
    refine ⟨by simpa using hlen, hcf, (List.nodup_cons.mp hnd).2, ?_⟩
    intro q hq
    have hqp : q ≠ p := fun hqe => (List.nodup_cons.mp hnd).1 (hqe ▸ hq)
    have hq2 := hmem q (List.mem_cons_of_mem p hq)
    refine ⟨hq2.1, ?_⟩
    show (s.driver.fences.set p true).get? q = some false
    rw [List.get?_set_ne _ _ (Ne.symm hqp)]
    exact hq2.2
  | frame inp d tr hguard hok =>
    rcases drawFrame_ok_cases inp s.driver d tr hok with
      ⟨hd, hsub, _⟩ | ⟨hf, hcf2, hsub, _⟩
    · subst hd
      refine ⟨hlen, hcf, ?_, ?_⟩
      · show (s.gpuPending ++ submittedSlots tr).Nodup
        rw [hsub, List.append_nil]
        exact hnd
      · intro q hq
        rw [hsub, List.append_nil] at hq
        exact hmem q hq
    · have hnotin : s.driver.currentFrame ∉ s.gpuPending := by
        intro hc
        have h2 := (hmem _ hc).2
        rw [hguard] at h2
        simp at h2
      refine ⟨?_, ?_, ?_, ?_⟩
      · show d.fences.length = MAX_FRAMES_IN_FLIGHT
        rw [hf, List.length_set]
        exact hlen
      · show d.currentFrame < MAX_FRAMES_IN_FLIGHT
        rw [hcf2]
        exact Nat.mod_lt _ (by decide)
      · show (s.gpuPending ++ submittedSlots tr).Nodup
        rw [hsub]
        refine List.nodup_append.mpr ⟨hnd, List.nodup_singleton _, ?_⟩
        intro x hx hx2
        simp at hx2
        subst hx2
        exact hnotin hx
      · intro q hq
        rw [hsub] at hq
        rcases List.mem_append.mp hq with hq | hq
        · have hq2 := hmem q hq
          have hqcf : q ≠ s.driver.currentFrame := fun hqe => hnotin (hqe ▸ hq)
          refine ⟨hq2.1, ?_⟩
          show d.fences.get? q = some false
          rw [hf, List.get?_set_ne _ _ (Ne.symm hqcf)]
          exact hq2.2
        · simp at hq
          subst hq
          refine ⟨hcf, ?_⟩
          show d.fences.get? s.driver.currentFrame = some false
          rw [hf]
          exact List.get?_set_eq_of_lt _ (hlen ▸ hcf)

/-- Every reachable state of the interleaved system satisfies the
invariant. -/
lemma reachable_sysInv {s : SysState} (h : Reachable s) : SysInv s := by
  induction h with
  | init => exact sysInv_init
  | step _ hs ih => exact sysInv_step ih hs

/-- A duplicate-free list of naturals all below `n` has length at most
`n`. -/
lemma nodup_lt_length_le {l : List Nat} {n : Nat} (hnd : l.Nodup)
    (hlt : ∀ p ∈ l, p < n) : l.length ≤ n := by
  have h2 : l.toFinset ⊆ Finset.range n := fun x hx =>
    Finset.mem_range.mpr (hlt x (List.mem_toFinset.mp hx))
  calc l.length = l.toFinset.card := (List.toFinset_card_of_nodup hnd).symm
    _ ≤ (Finset.range n).card := Finset.card_le_card h2
    _ = n := Finset.card_range n

/-- Format selection fails (the `availableFormats[0]` access on an empty
vector) exactly when the surface reports zero formats. -/
lemma chooseSwapSurfaceFormat_eq_none_iff (l : List SurfaceFormat) :
    ChooseSwapSurfaceFormat l = none ↔ l = [] := by
  cases l with
  | nil => simp [ChooseSwapSurfaceFormat]
  | cons f fs =>
    simp only [ChooseSwapSurfaceFormat]
    split
    · simp
    · simp

/-- Swapchain construction fails exactly when the surface reports zero
formats; no other input (in particular an empty present-mode list) makes it
fail. -/
lemma createSwapchain_eq_none_iff (support : SwapchainSupportDetails)
    (fb : Extent2D) :
    CreateSwapchain support fb = none ↔ support.formats = [] := by
  unfold CreateSwapchain
  rw [← chooseSwapSurfaceFormat_eq_none_iff support.formats]
  cases h : ChooseSwapSurfaceFormat support.formats <;> simp [h]

/-- C2: in every reachable state of the interleaved frame-loop/GPU system,
at most `MAX_FRAMES_IN_FLIGHT` submissions are outstanding, and whenever a
frame iteration (enabled only after the wait on the active slot's in-flight
fence has returned) resets and re-records a slot's command buffer, that slot
has no outstanding submission — the wait on the fence is what rules it
out. -/
theorem C2_bounded_in_flight_and_no_reuse (s : SysState) (h : Reachable s) :
    s.gpuPending.length ≤ MAX_FRAMES_IN_FLIGHT ∧
    (∀ (inp : FrameInputs) (d : DriverState) (tr : List FrameEvent),
      s.driver.fences.get? s.driver.currentFrame = some true →
      DrawFrame inp s.driver = Except.ok (d, tr) →
      ∀ i j, FrameEvent.resetAndRecorded i j ∈ tr → i ∉ s.gpuPending) := by
  obtain ⟨hlen, hcf, hnd, hmem⟩ := reachable_sysInv h
  constructor
  · exact nodup_lt_length_le hnd (fun p hp => (hmem p hp).1)
  · intro inp d tr hguard hok i j hrec hi
    rcases drawFrame_ok_cases inp s.driver d tr hok with
      ⟨_, _, hno⟩ | ⟨_, _, _, heq⟩
    · exact hno i j hrec
    · have hi2 : i = s.driver.currentFrame := heq i j hrec
      subst hi2
      have h2 := (hmem _ hi).2
      rw [hguard] at h2
      simp at h2

/-- C2 witness: the theorem applied at the initial state (reachable by
definition), instantiating the recording clause with a concrete successful
frame. -/
theorem C2_witness :
    initSys.gpuPending.length ≤ MAX_FRAMES_IN_FLIGHT ∧
    (0 : Nat) ∉ initSys.gpuPending :=
  ⟨(C2_bounded_in_flight_and_no_reuse initSys Reachable.init).1,
   (C2_bounded_in_flight_and_no_reuse initSys Reachable.init).2
     { acquireRes := VkResult.success, imageIndex := 0,
       presentRes := VkResult.success }
     { currentFrame := 1, fences := [false, true],
       framebufferResized := false, swapchainGeneration := 0 }
     [FrameEvent.waitedFence 0, FrameEvent.acquired VkResult.success,
      FrameEvent.resetFence 0, FrameEvent.resetAndRecorded 0 0,
      FrameEvent.submitted 0, FrameEvent.presented VkResult.success]
     (by rfl) (by rfl) 0 0 (by decide)⟩

/-- C6: extent selection uses the surface's fixed current extent verbatim
when its width is not the indeterminate sentinel, and otherwise clamps the
window's pixel size component-wise into the surface bounds; consequently a
resize-triggered rebuild (no fixed extent, window size within bounds) ends
with the swapchain extent equal to the window size observed by the rebuild's
wait loop. -/
theorem C6_extent_selection_and_resize :
    (∀ (caps : SurfaceCapabilities) (fb : Extent2D),
      caps.currentExtent.width ≠ UINT32_MAX →
      ChooseSwapExtent caps fb = caps.currentExtent) ∧
    (∀ (caps : SurfaceCapabilities) (fb : Extent2D),
      caps.currentExtent.width = UINT32_MAX →
      ChooseSwapExtent caps fb =
        { width := stdClamp fb.width caps.minImageExtent.width
            caps.maxImageExtent.width,
          height := stdClamp fb.height caps.minImageExtent.height
            caps.maxImageExtent.height }) ∧
    (∀ (support : SwapchainSupportDetails) (polled : List Extent2D)
        (a a' : AppResources) (w : Extent2D),
      firstNonZeroSize polled = some w →
      support.capabilities.currentExtent.width = UINT32_MAX →
      support.capabilities.minImageExtent.width ≤ w.width →
      w.width ≤ support.capabilities.maxImageExtent.width →
      support.capabilities.minImageExtent.height ≤ w.height →
      w.height ≤ support.capabilities.maxImageExtent.height →
      RecreateSwapchain support polled a = some a' →
      a'.sc.swapchainExtent = w) := by
  refine ⟨?_, ?_, ?_⟩
  · intro caps fb h
    simp [ChooseSwapExtent, bne_iff_ne, h]
  · intro caps fb h
    simp [ChooseSwapExtent, h]
  · intro support polled a a' w hfind hsent hw1 hw2 hh1 hh2 hrec
    simp only [RecreateSwapchain, hfind] at hrec
    cases hcs : CreateSwapchain support w with
    | none => simp [hcs] at hrec
    | some sc =>
      simp only [hcs] at hrec
      injection hrec with hrec
      subst hrec
      simp only [CreateSwapchain] at hcs
      cases hcf : ChooseSwapSurfaceFormat support.formats with
      | none => simp [hcf] at hcs
      | some fmt =>
        simp only [hcf] at hcs
        injection hcs with hcs
        subst hcs
        show ChooseSwapExtent support.capabilities w = w
        simp only [ChooseSwapExtent, hsent, bne_self_eq_false, Bool.false_eq_true,
          if_false]
        have hcw : stdClamp w.width support.capabilities.minImageExtent.width
            support.capabilities.maxImageExtent.width = w.width := by
          unfold stdClamp; split_ifs <;> omega
        have hch : stdClamp w.height support.capabilities.minImageExtent.height
            support.capabilities.maxImageExtent.height = w.height := by
          unfold stdClamp; split_ifs <;> omega
        rw [hcw, hch]

/-- C6 witness: the theorem's clauses evaluated at the sample resize — the
rebuilt extent equals the 640 by 480 size found by the wait loop. -/
theorem C6_witness :
    ChooseSwapExtent sampleCaps { width := 640, height := 480 } =
      { width := stdClamp 640 sampleCaps.minImageExtent.width
          sampleCaps.maxImageExtent.width,
        height := stdClamp 480 sampleCaps.minImageExtent.height
          sampleCaps.maxImageExtent.height } ∧
    sampleRebuilt.sc.swapchainExtent = { width := 640, height := 480 } :=
  ⟨C6_extent_selection_and_resize.2.1 sampleCaps { width := 640, height := 480 }
    rfl,
   C6_extent_selection_and_resize.2.2 sampleSupport samplePolled sampleApp
    sampleRebuilt { width := 640, height := 480 }
    (by decide) rfl (by decide) (by decide) (by decide) (by decide) (by rfl)⟩

/-- C7: rebuilding twice with the same surface support and the same
framebuffer-size observations yields the same extent and the same image
count both times — the rebuild re-derives both from the environment alone,
independently of the prior swapchain state. -/
theorem C7_rebuild_idempotent (support : SwapchainSupportDetails)
    (polled : List Extent2D) (a a1 a2 : AppResources)
    (h1 : RecreateSwapchain support polled a = some a1)
    (h2 : RecreateSwapchain support polled a1 = some a2) :
    a1.sc.swapchainExtent = a2.sc.swapchainExtent ∧
    a1.sc.imageCount = a2.sc.imageCount := by
  cases hf : firstNonZeroSize polled with
  | none => simp [RecreateSwapchain, hf] at h1
  | some w =>
    simp only [RecreateSwapchain, hf] at h1 h2
    cases hcs : CreateSwapchain support w with
    | none => simp [hcs] at h1
    | some sc =>
      simp only [hcs] at h1 h2
      injection h1 with h1
      injection h2 with h2
      subst h1
      subst h2
      exact ⟨rfl, rfl⟩

/-- C7 witness: the theorem applied to two successive sample rebuilds. -/
theorem C7_witness :
    sampleRebuilt.sc.swapchainExtent = sampleRebuilt.sc.swapchainExtent ∧
    sampleRebuilt.sc.imageCount = sampleRebuilt.sc.imageCount :=
  C7_rebuild_idempotent sampleSupport samplePolled sampleApp sampleRebuilt
    sampleRebuilt (by rfl) (by rfl)

/-- C8: swapchain destruction releases exactly the per-image framebuffers,
the image views and the swapchain handle, leaving the surface, device,
pipeline, pipeline layout, render pass and every frame-slot resource
(command buffers, both semaphore pools, in-flight fences) unchanged; and a
full rebuild likewise leaves all of those untouched. -/
theorem C8_cleanup_frame_effect :
    (∀ a : AppResources,
      (CleanupSwapchain a).sc.framebufferCount = 0 ∧
      (CleanupSwapchain a).sc.imageViewCount = 0 ∧
      (CleanupSwapchain a).sc.swapchainAlive = false ∧
      (CleanupSwapchain a).surfaceAlive = a.surfaceAlive ∧
      (CleanupSwapchain a).deviceAlive = a.deviceAlive ∧
      (CleanupSwapchain a).pipelineAlive = a.pipelineAlive ∧
      (CleanupSwapchain a).pipelineLayoutAlive = a.pipelineLayoutAlive ∧
      (CleanupSwapchain a).renderPassAlive = a.renderPassAlive ∧
      (CleanupSwapchain a).commandBuffersAlive = a.commandBuffersAlive ∧
      (CleanupSwapchain a).imageAvailableSemaphoresAlive =
        a.imageAvailableSemaphoresAlive ∧
      (CleanupSwapchain a).renderFinishedSemaphoresAlive =
        a.renderFinishedSemaphoresAlive ∧
      (CleanupSwapchain a).inFlightFencesAlive = a.inFlightFencesAlive) ∧
    (∀ (support : SwapchainSupportDetails) (polled : List Extent2D)
        (a a' : AppResources),
      RecreateSwapchain support polled a = some a' →
      a'.surfaceAlive = a.surfaceAlive ∧
      a'.deviceAlive = a.deviceAlive ∧
      a'.pipelineAlive = a.pipelineAlive ∧
      a'.pipelineLayoutAlive = a.pipelineLayoutAlive ∧
      a'.renderPassAlive = a.renderPassAlive ∧
      a'.commandBuffersAlive = a.commandBuffersAlive ∧
      a'.imageAvailableSemaphoresAlive = a.imageAvailableSemaphoresAlive ∧
      a'.renderFinishedSemaphoresAlive = a.renderFinishedSemaphoresAlive ∧
      a'.inFlightFencesAlive = a.inFlightFencesAlive) := by
  constructor
  · intro a
    exact ⟨rfl, rfl, rfl, rfl, rfl, rfl, rfl, rfl, rfl, rfl, rfl, rfl⟩
  · intro support polled a a' hrec
    cases hf : firstNonZeroSize polled with
    | none => simp [RecreateSwapchain, hf] at hrec
    | some w =>
      simp only [RecreateSwapchain, hf] at hrec
      cases hcs : CreateSwapchain support w with
      | none => simp [hcs] at hrec
      | some sc =>
        simp only [hcs] at hrec
        injection hrec with hrec
        subst hrec
        exact ⟨rfl, rfl, rfl, rfl, rfl, rfl, rfl, rfl, rfl⟩

/-- C8 witness: the theorem's rebuild clause applied to the sample
rebuild. -/
theorem C8_witness :
    sampleRebuilt.surfaceAlive = sampleApp.surfaceAlive ∧
    sampleRebuilt.deviceAlive = sampleApp.deviceAlive ∧
    sampleRebuilt.pipelineAlive = sampleApp.pipelineAlive ∧
    sampleRebuilt.pipelineLayoutAlive = sampleApp.pipelineLayoutAlive ∧
    sampleRebuilt.renderPassAlive = sampleApp.renderPassAlive ∧
    sampleRebuilt.commandBuffersAlive = sampleApp.commandBuffersAlive ∧
    sampleRebuilt.imageAvailableSemaphoresAlive =
      sampleApp.imageAvailableSemaphoresAlive ∧
    sampleRebuilt.renderFinishedSemaphoresAlive =
      sampleApp.renderFinishedSemaphoresAlive ∧
    sampleRebuilt.inFlightFencesAlive = sampleApp.inFlightFencesAlive :=
  C8_cleanup_frame_effect.2 sampleSupport samplePolled sampleApp sampleRebuilt
    (by rfl)

/-- C9 counterexample: a surface reporting one usable format but zero
present modes does not make construction fail — `ChooseSwapPresentMode`
silently falls back to FIFO with no emptiness check — refuting the claimed
"if and only if zero usable formats or zero present-modes". -/
theorem C9_counterexample :
    ¬ ((CreateSwapchain noPresentModeSupport { width := 800, height := 600 }
          = none) ↔
       (noPresentModeSupport.formats = [] ∨
        noPresentModeSupport.presentModes = [])) := by
  decide

/-- C9 (amended): swapchain construction fails (the out-of-bounds access of
`availableFormats[0]`) exactly when the surface reports zero usable formats;
zero present modes is not an error (FIFO fallback); and a zero-sized
(minimized) window is handled by the rebuild's blocking poll: as soon as a
non-zero size is observed, the rebuild returns successfully. -/
theorem C9_fatal_only_when_no_formats :
    (∀ (support : SwapchainSupportDetails) (fb : Extent2D),
      CreateSwapchain support fb = none ↔ support.formats = []) ∧
    ChooseSwapPresentMode [] = PresentMode.fifo ∧
    (∀ (support : SwapchainSupportDetails) (polled : List Extent2D)
        (a : AppResources),
      support.formats ≠ [] →
      (∃ e ∈ polled, e.width ≠ 0 ∧ e.height ≠ 0) →
      ∃ a', RecreateSwapchain support polled a = some a') := by
  refine ⟨createSwapchain_eq_none_iff, rfl, ?_⟩
  intro support polled a hfmt hpoll
  obtain ⟨e, he, hw, hh⟩ := hpoll
  cases hf : firstNonZeroSize polled with
  | none =>
    exfalso
    unfold firstNonZeroSize at hf
    have hnone := List.find?_eq_none.mp hf e he
    simp [hw, hh] at hnone
  | some w =>
    cases hcs : CreateSwapchain support w with
    | none => exact absurd ((createSwapchain_eq_none_iff support w).mp hcs) hfmt
    | some sc =>
      refine ⟨{ CleanupSwapchain a with
                  sc := CreateFramebuffers (CreateImageViews sc) }, ?_⟩
      simp [RecreateSwapchain, hf, hcs]

/-- C9 witness: the amended theorem's clauses evaluated at the sample
support and a minimized-then-restored poll stream. -/
theorem C9_witness :
    (CreateSwapchain sampleSupport { width := 640, height := 480 } = none ↔
      sampleSupport.formats = []) ∧
    ChooseSwapPresentMode [] = PresentMode.fifo :=
  ⟨C9_fatal_only_when_no_formats.1 sampleSupport { width := 640, height := 480 },
   C9_fatal_only_when_no_formats.2.1⟩

/-- C10: the number of presentable images requested by swapchain creation is
the surface's minimum image count plus one, reduced to the surface's maximum
whenever that maximum is non-zero and smaller; the closed form mentions only
the surface capabilities — it is computed independently of the frame-slot
count, which is the fixed constant `MAX_FRAMES_IN_FLIGHT = 2`. -/
theorem C10_requested_image_count (caps : SurfaceCapabilities)
    (h : caps.minImageCount + 1 < 4294967296) :
    swapImageCount caps =
      (if caps.maxImageCount ≠ 0 ∧ caps.maxImageCount < caps.minImageCount + 1
       then caps.maxImageCount
       else caps.minImageCount + 1) ∧
    MAX_FRAMES_IN_FLIGHT = 2 := by
  constructor
  · simp only [swapImageCount]
    rw [Nat.mod_eq_of_lt h]
    split_ifs with h1 h2 <;> omega
  · rfl

/-- C10 witness: the theorem applied to the sample capabilities (minimum 2,
maximum 8 gives a request of 3 images). -/
theorem C10_witness :
    swapImageCount sampleCaps =
      (if sampleCaps.maxImageCount ≠ 0 ∧
          sampleCaps.maxImageCount < sampleCaps.minImageCount + 1
       then sampleCaps.maxImageCount
       else sampleCaps.minImageCount + 1) ∧
    MAX_FRAMES_IN_FLIGHT = 2 :=
  C10_requested_image_count sampleCaps (by decide)

end MiniEngine
